import Mathlib

/-!
Verification of the TC-1000 serial bridge (src/GUI/TC-1000_GUI.py).

The Python source is shallowly embedded below.  Temperatures travel as
Python floats in the source; they are modelled as rationals, so the
arithmetic (9/5, 5/9, +32) is exact.  A raw inbound line is modelled as
its whitespace-split token list; each token records whether Python
would accept it as a float literal, as an int literal, or as neither.
Exceptions are modelled by pairing each step with an `Option PyErr`
describing the exception (if any) that escapes the step, together with
the state as mutated up to the point where the exception was raised.
GUI side effects (LCD display, spin box, radio buttons, status bar) are
recorded as plain fields; Qt signal re-entry and widget clamping are
presentation-layer behaviour outside the scope of the claims.
-/

namespace TC1000

/-- Exceptions that the embedded fragments of the source can raise. -/
inductive PyErr where
  | valueError
  | attributeError
  | nameError
  | indexError
  | serialException
  | environmentError
deriving DecidableEq

/-- One whitespace-split field of an inbound line.  `intTok n` is text
accepted by both Python `int()` and `float()`; `floatTok q` is text
accepted by `float()` but rejected by `int()` (such as "2.5"); `bad s`
is text rejected by both. -/
inductive Token where
  | intTok (n : ℤ)
  | floatTok (q : ℚ)
  | bad (s : String)
deriving DecidableEq

/-- Numeric value of a token (0 for non-numeric text, which the source
never reads as a number without first raising). -/
def tokVal : Token → ℚ
  | .intTok n => (n : ℚ)
  | .floatTok q => q
  | .bad _ => 0

/-- Python `float(tok)` on a token: the value, or a ValueError. -/
def pyFloat : Token → Except PyErr ℚ
  | .intTok n => .ok (n : ℚ)
  | .floatTok q => .ok q
  | .bad _ => .error .valueError

/-- Python `int(tok)` on a token: int literals only, else ValueError. -/
def pyInt : Token → Except PyErr ℤ
  | .intTok n => .ok n
  | .floatTok _ => .error .valueError
  | .bad _ => .error .valueError

/-- Python `int(x)` on a number: truncation toward zero. -/
def pyTrunc (q : ℚ) : ℤ := Int.tdiv q.num (q.den : ℤ)

/-- `toFahrenheit` from the source: `(float(celsius)*9.0/5.0)+32.0`. -/
def toFahrenheit (celsius : ℚ) : ℚ := celsius * 9 / 5 + 32

/-- `toCelsius` from the source: `(float(fahrenheit)-32.0)*(5.0/9.0)`. -/
def toCelsius (fahrenheit : ℚ) : ℚ := (fahrenheit - 32) * (5 / 9)

/-- Whether Python `float()` accepts the token. -/
def floatable : Token → Bool
  | .bad _ => false
  | _ => true

/-- Whether Python `int()` accepts the token. -/
def intable : Token → Bool
  | .intTok _ => true
  | _ => false

/-- A line that the 1/2/3-token parse branch of `processIncoming`
consumes without raising: a valid token count with every field numeric
where a number is expected. -/
def goodLine : List Token → Bool
  | [t0] => floatable t0
  | [t0, t1] => floatable t0 && intable t1
  | [t0, t1, t2] => floatable t0 && intable t1 && floatable t2
  | _ => false

/-- A line with token count 1, 2 or 3 that has a non-numeric field in a
position where `processIncoming` applies `float()` or `int()`. -/
def badNumeric : List Token → Bool
  | [t0] => !floatable t0
  | [t0, t1] => !floatable t0 || !intable t1
  | [t0, t1, t2] => !floatable t0 || !intable t1 || !floatable t2
  | _ => false

/-- The consumer-side state of `SerialMonitor`.  `current` is an
`Option` because `self.current` is only assigned by a decoded reading;
reading it before any assignment raises AttributeError.  `tempArray`
rows keep the (current, target) pair; the wall-clock timestamp column
is dropped from the model.  `lcd` is `none` when the LCD was cleared
with `display("")` or never written. -/
structure MonitorState where
  fahrenheit : ℤ
  target : ℚ
  current : Option ℚ
  currentInitialized : Bool
  tempArrayInitialized : Bool
  fSelectChecked : Bool
  cSelectChecked : Bool
  targetSuffix : String
  targetSpin : ℤ
  lcd : Option ℚ
  tempArray : List (ℚ × ℚ)
deriving DecidableEq

/-- `SerialMonitor.__init__`: Celsius default (`fahrenheit = 0`),
`target = 30`, `self.current` not yet assigned, both init flags False,
Celsius radio button checked. -/
def initMonitorState : MonitorState :=
  { fahrenheit := 0
    target := 30
    current := none
    currentInitialized := false
    tempArrayInitialized := false
    fSelectChecked := false
    cSelectChecked := true
    targetSuffix := ""
    targetSpin := 0
    lcd := none
    tempArray := [] }

/-- The `if len(msg) == 1 / 2 / 3` parse branches of
`SerialMonitor.processIncoming`, mirrored assignment by assignment
(including the exact order, which matters when a later field raises).
Any other token count falls through with no assignment. -/
def parseMsg (st : MonitorState) (msg : List Token) :
    MonitorState × Option PyErr :=
  match msg with
    | [t0] =>
      match pyFloat t0 with
      | .error e => (st, some e)
      | .ok c =>
        ({ st with current := some c, currentInitialized := true }, none)
    | [t0, t1] =>
      match pyFloat t0 with
      | .error e => (st, some e)
      | .ok c =>
        let st1 := { st with current := some c }
        match pyInt t1 with
        | .error e => (st1, some e)
        | .ok f =>
          let st2 := { st1 with fahrenheit := f, currentInitialized := true }
          if f ≠ 0 then
            ({ st2 with fSelectChecked := true, targetSuffix := " F",
                        targetSpin := pyTrunc (toFahrenheit st2.target) }, none)
          else (st2, none)
    | [t0, t1, t2] =>
      match pyFloat t0 with
      | .error e => (st, some e)
      | .ok c =>
        let st1 := { st with current := some c, currentInitialized := true }
        match pyInt t1 with
        | .error e => (st1, some e)
        | .ok f =>
          let st2 := { st1 with fahrenheit := f }
          match pyFloat t2 with
          | .error e => (st2, some e)
          | .ok t =>
            let st3 := { st2 with target := t }
            if f ≠ 0 then
              ({ st3 with fSelectChecked := true, targetSuffix := " F",
                          targetSpin := pyTrunc (toFahrenheit t) }, none)
            else
              ({ st3 with cSelectChecked := true, targetSuffix := " C",
                          targetSpin := pyTrunc t }, none)
    | _ => (st, none)

/-- The unconditional tail of the `processIncoming` loop body (lines
280-291): display the current temperature on the LCD (in Fahrenheit
when the flag is set), then append a (current, target) row to the
temperature array, creating it on the first initialized reading
(`initializeTempArray` inlined).  Reading `self.current` before any
assignment raises AttributeError. -/
def displayAndRecord (stp : MonitorState) : MonitorState × Option PyErr :=
  match stp.current with
  | none => (stp, some .attributeError)
  | some c =>
    let std :=
      { stp with lcd := some (if stp.fahrenheit ≠ 0 then toFahrenheit c else c) }
    if std.tempArrayInitialized then
      ({ std with tempArray := std.tempArray ++ [(c, std.target)] }, none)
    else if std.currentInitialized then
      ({ std with tempArray := [(c, std.target)],
                  tempArrayInitialized := true }, none)
    else (std, none)

/-- One iteration of the while-loop body of
`SerialMonitor.processIncoming` applied to one dequeued message
(already split into tokens): the 1/2/3-token parse branches, then —
only when no exception was raised — the LCD/temperature-array tail.
The source catches only `queue.Empty`, so every error produced here
escapes `processIncoming`; the returned state carries the mutations
performed before the raise. -/
def processMsg (st : MonitorState) (msg : List Token) :
    MonitorState × Option PyErr :=
  match parseMsg st msg with
  | (stp, some e) => (stp, some e)
  | (stp, none) => displayAndRecord stp

/-- `LifoQueue.put`: the entry most recently pushed is at the head. -/
def lifoPut {α : Type} (q : List α) (x : α) : List α := x :: q

/-- `SerialMonitor.processIncoming`: drain the inbound LIFO queue,
running `processMsg` on each popped message.  Returns the final state,
the messages in the order the loop consumed them, and the messages
still queued.  An escaping exception aborts the drain (the source
catches only `queue.Empty`), leaving the remaining messages queued. -/
def processIncoming :
    MonitorState → List (List Token) →
    MonitorState × List (List Token) × List (List Token)
  | st, [] => (st, [], [])
  | st, m :: rest =>
    match processMsg st m with
    | (stm, none) =>
      let r := processIncoming stm rest
      (r.1, m :: r.2.1, r.2.2)
    | (stm, some _) => (stm, [m], rest)

/-- An entry of the outbound LIFO queue.  `ThreadedClient.writeData`
puts the float `self.monitor.target`; `ThreadedClient.scaleChange`
puts the strings "F" / "C"; `self.outVal` starts as the int 0. -/
inductive OutVal where
  | num (q : ℚ)
  | strV (s : String)
deriving DecidableEq

/-- Python `str()` of an outbound value, as written to the serial
handle.  The exact digit rendering of a float is abstracted by the
rational `toString`; the claims depend only on the encoded-text /
newline structure of the writes, not on the digits. -/
def pyStr : OutVal → String
  | .num q => toString q
  | .strV s => s

/-- A pyserial handle: the opened port name and whether it is open. -/
structure SerialHandle where
  port : String
  isOpen : Bool
deriving DecidableEq

/-- pyserial `Serial.close()`: safe on an already-closed handle. -/
def closeHandle (h : SerialHandle) : SerialHandle := { h with isOpen := false }

/-- The `ThreadedClient` state: the hosted `SerialMonitor`, the two
LIFO queues, the port list, the optional serial handle (`none` models
`self.ser` never having been assigned), the status-bar text, the
`running` flag, the `controlsEnabled` flag, the `self.outVal` register
and a transcript of the strings passed to `self.ser.write`. -/
structure ClientState where
  monitor : MonitorState
  inQueue : List (List Token)
  outQueue : List OutVal
  ports : List String
  ser : Option SerialHandle
  statusBar : String
  running : Bool
  controlsOn : Bool
  outValReg : OutVal
  written : List String
deriving DecidableEq

/-- A `ThreadedClient` that found no ports at startup: `self.ser` was
never assigned, `self.outVal = 0`, queues empty. -/
def clientNoSerial : ClientState :=
  { monitor := initMonitorState
    inQueue := []
    outQueue := []
    ports := []
    ser := none
    statusBar := "Initializing"
    running := true
    controlsOn := false
    outValReg := .num 0
    written := [] }

/-- A `ThreadedClient` connected to COM2, with COM3 also listed: the
concrete state used to evaluate the port-change and close paths. -/
def clientOnCom2 : ClientState :=
  { clientNoSerial with ports := ["COM2", "COM3"],
                        ser := some { port := "COM2", isOpen := true },
                        controlsOn := true }

/-- `ThreadedClient.initSerial(port, baud)`: `serial.Serial(port, baud)`
either succeeds (modelled by the environment flag `openOK`), assigning
`self.ser` and enabling controls and returning True, or raises
OSError/SerialException which is caught, returning False with the
state untouched. -/
def initSerial (st : ClientState) (port : String) (openOK : Bool) :
    ClientState × Bool :=
  if openOK then
    ({ st with ser := some { port := port, isOpen := true },
               controlsOn := true }, true)
  else (st, false)

/-- `ThreadedClient.writeData(data)`: compare the spin-box value
against the current target in the displayed unit, ratchet the target
by one Celsius degree (Celsius display) or 5/9 of a degree (Fahrenheit
display), then put the new target on the outbound queue. -/
def writeData (st : ClientState) (data : ℚ) : ClientState :=
  let t := st.monitor.target
  let t2 :=
    if st.monitor.fahrenheit = 0 then
      if data > t then t + 1
      else if data < t then t - 1
      else t
    else
      if data > toFahrenheit t then t + 5 / 9
      else if data < toFahrenheit t then t - 5 / 9
      else t
  { st with monitor := { st.monitor with target := t2 },
            outQueue := lifoPut st.outQueue (.num t2) }

/-- `ThreadedClient.endWidget`: set `self.running = 0`, then call
`self.ser.close()`.  When `self.ser` was never assigned (no serial
connection ever opened) the attribute access raises AttributeError;
otherwise pyserial `close()` succeeds even on a closed handle. -/
def endWidget (st : ClientState) : ClientState × Option PyErr :=
  let st1 := { st with running := false }
  match st1.ser with
  | none => (st1, some .attributeError)
  | some h => ({ st1 with ser := some (closeHandle h) }, none)

/-- The names bound at module level in src/GUI/TC-1000_GUI.py (imports,
module functions, classes, the two trailing module variables).  Inside
a method body a bare name is resolved against these globals; class
attributes such as `BAUD_RATE` are NOT in this scope. -/
def moduleGlobals : List String :=
  ["sys", "time", "datetime", "math", "threading", "random", "queue",
   "glob", "np", "QtGui", "QtCore", "QtWidgets", "Figure",
   "FigureCanvas", "serial", "__author__", "serial_ports",
   "toFahrenheit", "toCelsius", "MainWindow", "SerialMonitor",
   "MplCanvasWidget", "PlotControlWidget", "ThreadedClient",
   "root", "client"]

/-- pyserial `Serial.open()`: raises SerialException when the port is
already open, else opens it. -/
def serOpenCall (st : ClientState) : ClientState × Option PyErr :=
  match st.ser with
  | none => (st, some .attributeError)
  | some h =>
    if h.isOpen then (st, some .serialException)
    else ({ st with ser := some { h with isOpen := true } }, none)

/-- `ThreadedClient.changePort(portIndex)`: the `try` body runs
`self.ser.close()`, then `self.initSerial(self.ports[portIndex],
BAUD_RATE)`, then `self.ser.open()`; the bare `except` catches any
exception and shows "Error on " plus the selected port.  `BAUD_RATE`
on line 599 is a bare name resolved against the module globals — the
constant is a class attribute, so the lookup raises NameError before
`initSerial` is ever entered (the post-lookup branch is modelled for
completeness but is unreachable). -/
def changePort (st : ClientState) (portIndex : ℕ) (openOK : Bool) :
    ClientState :=
  let body : ClientState × Option PyErr :=
    match st.ser with
    | none => (st, some .attributeError)
    | some h =>
      let st1 := { st with ser := some (closeHandle h) }
      match st1.ports.get? portIndex with
      | none => (st1, some .indexError)
      | some p =>
        if moduleGlobals.contains "BAUD_RATE" then
          serOpenCall (initSerial st1 p openOK).1
        else (st1, some .nameError)
  match body with
  | (stb, none) => stb
  | (stb, some _) =>
    { stb with statusBar := "Error on " ++ stb.ports.getD portIndex "" }

/-- Outcome of one `self.ser.readline()` call in `workerThread1`:
non-empty bytes (carried as their token split), empty bytes (falsy, so
the line is dropped), or a SerialException. -/
inductive ReadResult where
  | got (l : List Token)
  | emptyRead
  | fault
deriving DecidableEq

/-- The read half of one connected-loop iteration of
`ThreadedClient.workerThread1` (lines 630-643): on a successful
non-empty read, update the status bar and push the line onto the
inbound LIFO queue; on an empty read, do nothing; on a SerialException,
retry the read once immediately (`r2`, whose successful result is
discarded), and if the retry also raises, show the error, blank the
LCD and clear `self.ports`. -/
def readPhase (st : ClientState) (r1 r2 : ReadResult) : ClientState :=
  match r1 with
  | .got l =>
    { st with statusBar := "Serial connection active",
              inQueue := lifoPut st.inQueue l }
  | .emptyRead => st
  | .fault =>
    match r2 with
    | .fault =>
      { st with statusBar := "Error on " ++ st.ports.headD "",
                monitor := { st.monitor with lcd := none },
                ports := [] }
    | _ => st

/-- The write half of one connected-loop iteration of
`ThreadedClient.workerThread1` (lines 646-649): if the outbound queue
is non-empty, pop one entry (LIFO, so the most recently pushed) into
`self.outVal` and write its text encoding followed by a newline.
Write faults are not modelled (the source performs the writes outside
any `try`). -/
def writePhase (st : ClientState) : ClientState :=
  match st.outQueue with
  | [] => st
  | v :: rest =>
    { st with outQueue := rest, outValReg := v,
              written := st.written ++ [pyStr v, "\n"] }

/-- One full iteration of the connected inner loop of `workerThread1`:
the read attempt (with its single retry) followed by the outbound
write step. -/
def connectedCycle (st : ClientState) (r1 r2 : ReadResult) : ClientState :=
  writePhase (readPhase st r1 r2)

/-- Which loop the worker enters next, from the two while conditions
`while self.running` (outer) and `while self.ports and self.running`
(inner): with `running` false both exit; with `ports` empty the worker
falls back to the scanning loop. -/
inductive Phase where
  | connected
  | scanning
  | stopped
deriving DecidableEq

/-- The worker loop state selected at the next iteration boundary. -/
def nextPhase (st : ClientState) : Phase :=
  if st.running = false then .stopped
  else if st.ports.isEmpty then .scanning
  else .connected

/-- Host platform cases distinguished by `serial_ports`. -/
inductive Platform where
  | win
  | linux
  | darwin
  | other
deriving DecidableEq

/-- The `for port in ports` probe loop of `serial_ports`: try to open
and immediately close each candidate (success modelled by the
environment predicate `probe`), appending it to the result; OSError /
SerialException is caught and the candidate skipped. -/
def probeLoop (probe : String → Bool) : List String → List String
  | [] => []
  | p :: rest =>
    if probe p then p :: probeLoop probe rest else probeLoop probe rest

/-- `serial_ports()`: platform-dependent candidates — on Windows
`COM2`..`COM256` (`range(1,256)` with `COM + str(i+1)` excludes COM1),
on Linux and Darwin a glob over device nodes (passed in as lists),
otherwise EnvironmentError — then the open/close probe loop. -/
def serial_ports (plat : Platform) (probe : String → Bool)
    (globLinux globDarwin : List String) : Except PyErr (List String) :=
  match plat with
  | .win =>
    .ok (probeLoop probe
      ((List.range' 1 255).map fun i => "COM" ++ toString (i + 1)))
  | .linux => .ok (probeLoop probe globLinux)
  | .darwin => .ok (probeLoop probe globDarwin)
  | .other => .error .environmentError


lemma displayAndRecord_snd (stp : MonitorState) :
    (displayAndRecord stp).2 = if stp.current.isSome then none
      else some PyErr.attributeError := by
  unfold displayAndRecord
  rcases hc : stp.current with _ | c <;> simp [hc]
  split <;> (try split) <;> simp

lemma displayAndRecord_fields (stp : MonitorState) :
    (displayAndRecord stp).1.target = stp.target ∧
    (displayAndRecord stp).1.fahrenheit = stp.fahrenheit ∧
    (displayAndRecord stp).1.current = stp.current := by
  unfold displayAndRecord
  rcases hc : stp.current with _ | c
  · simp [hc]
  · simp [hc]
    split <;> (try split) <;> simp [hc]

lemma parseMsg_good (st : MonitorState) (m : List Token)
    (h : goodLine m = true) :
    (parseMsg st m).2 = none ∧ (parseMsg st m).1.current.isSome = true := by
  match m with
  | [t0] =>
    cases t0 <;> simp_all [goodLine, floatable, parseMsg, pyFloat]
  | [t0, t1] =>
    cases t0 <;> cases t1 <;>
      simp_all [goodLine, floatable, intable, parseMsg, pyFloat, pyInt] <;>
      split <;> simp
  | [t0, t1, t2] =>
    cases t0 <;> cases t1 <;> cases t2 <;>
      simp_all [goodLine, floatable, intable, parseMsg, pyFloat, pyInt] <;>
      split <;> simp
  | [] => simp [goodLine] at h
  | t0 :: t1 :: t2 :: t3 :: rest => simp [goodLine] at h

lemma processMsg_good (st : MonitorState) (m : List Token)
    (h : goodLine m = true) : (processMsg st m).2 = none := by
  obtain ⟨h1, h2⟩ := parseMsg_good st m h
  unfold processMsg
  rcases hp : parseMsg st m with ⟨stp, e⟩
  rw [hp] at h1 h2
  simp at h1
  subst h1
  simp [displayAndRecord_snd, h2]

lemma processMsg_fields (st : MonitorState) (m : List Token) :
    (processMsg st m).1.target = (parseMsg st m).1.target ∧
    (processMsg st m).1.fahrenheit = (parseMsg st m).1.fahrenheit ∧
    (processMsg st m).1.current = (parseMsg st m).1.current := by
  unfold processMsg
  rcases hp : parseMsg st m with ⟨stp, e⟩
  cases e
  · simpa using displayAndRecord_fields stp
  · simp

lemma parseMsg_default (st : MonitorState) (m : List Token)
    (h : m.length = 0 ∨ 4 ≤ m.length) : parseMsg st m = (st, none) := by
  match m with
  | [] => rfl
  | [t0] => simp at h
  | [t0, t1] => simp at h
  | [t0, t1, t2] => simp at h
  | t0 :: t1 :: t2 :: t3 :: rest => rfl

lemma parseMsg_bad (st : MonitorState) (m : List Token)
    (h : badNumeric m = true) :
    (parseMsg st m).2 = some PyErr.valueError := by
  match m with
  | [t0] =>
    cases t0 <;> simp_all [badNumeric, floatable, parseMsg, pyFloat]
  | [t0, t1] =>
    cases t0 <;> cases t1 <;>
      simp_all [badNumeric, floatable, intable, parseMsg, pyFloat, pyInt]
  | [t0, t1, t2] =>
    cases t0 <;> cases t1 <;> cases t2 <;>
      simp_all [badNumeric, floatable, intable, parseMsg, pyFloat, pyInt]
  | [] => simp [badNumeric] at h
  | t0 :: t1 :: t2 :: t3 :: rest => simp [badNumeric] at h

lemma processMsg_err (st : MonitorState) (m : List Token) (e : PyErr)
    (h : (parseMsg st m).2 = some e) : (processMsg st m).2 = some e := by
  unfold processMsg
  rcases hp : parseMsg st m with ⟨stp, e2⟩
  rw [hp] at h
  simp at h
  subst h
  simp

lemma foldl_lifoPut {α : Type} (lines q : List α) :
    List.foldl lifoPut q lines = lines.reverse ++ q := by
  induction lines generalizing q with
  | nil => simp
  | cons a tl ih => simp [lifoPut, ih]

lemma processIncoming_all_good (st : MonitorState) (q : List (List Token))
    (h : ∀ m ∈ q, goodLine m = true) :
    (processIncoming st q).2.1 = q ∧ (processIncoming st q).2.2 = [] := by
  induction q generalizing st with
  | nil => simp [processIncoming]
  | cons m rest ih =>
    have h2 := processMsg_good st m (h m (by simp))
    rcases hp : processMsg st m with ⟨stm, e⟩
    rw [hp] at h2
    simp at h2
    subst h2
    have hr := ih stm (fun x hx => h x (by simp [hx]))
    simp [processIncoming, hp, hr.1, hr.2]


/-- Claim C1, counterexample.  The claim asserts that a malformed line
is discarded with no exception and no state change.  In the source the
loop catches only `queue.Empty`, so a non-numeric field raises an
uncaught ValueError out of `processIncoming`; moreover the line
"10 x" assigns `self.current` before `int("x")` raises, so consumer
state does change.  Both parts of the claim fail at these inputs. -/
theorem c1_decode_failure_counterexample :
    (processMsg initMonitorState [Token.bad "abc"]).2 =
      some PyErr.valueError ∧
    (processMsg initMonitorState [Token.intTok 10, Token.bad "x"]).2 =
      some PyErr.valueError ∧
    (processMsg initMonitorState [Token.intTok 10, Token.bad "x"]).1.current =
      some 10 ∧
    initMonitorState.current = none := by decide

/-- Claim C1, amended.  Lines whose token count is not 1, 2 or 3 make
no parse-branch assignment: `currentC`, the fahrenheit flag and
`targetC` are unchanged, and, provided a prior reading has initialized
the current temperature, no exception escapes.  A 1/2/3-token line
with a non-numeric field where a number is expected raises an uncaught
ValueError instead of being silently discarded (fields parsed before
the offending token may already have been updated). -/
theorem c1_decode_failure_amended (st : MonitorState) (msg : List Token) :
    ((msg.length = 0 ∨ 4 ≤ msg.length) →
      (processMsg st msg).1.current = st.current ∧
      (processMsg st msg).1.fahrenheit = st.fahrenheit ∧
      (processMsg st msg).1.target = st.target ∧
      (st.current.isSome = true → (processMsg st msg).2 = none)) ∧
    (badNumeric msg = true →
      (processMsg st msg).2 = some PyErr.valueError) := by
  constructor
  · intro h
    have hd := parseMsg_default st msg h
    have hf := processMsg_fields st msg
    rw [hd] at hf
    refine ⟨hf.2.2, hf.2.1, hf.1, ?_⟩
    intro hc
    unfold processMsg
    rw [hd]
    simp [displayAndRecord_snd, hc]
  · intro h
    exact processMsg_err st msg _ (parseMsg_bad st msg h)

/-- Witness for the amended claim C1 at concrete inputs: a 4-token
line on an initialized state changes nothing and raises nothing, and a
2-token line with a non-numeric flag raises ValueError. -/
theorem c1_decode_failure_witness :
    (processMsg { initMonitorState with current := some 21 }
        [Token.intTok 1, Token.intTok 2, Token.intTok 3,
         Token.intTok 4]).1.target =
      ({ initMonitorState with current := some 21 } : MonitorState).target ∧
    (processMsg { initMonitorState with current := some 21 }
        [Token.intTok 1, Token.intTok 2, Token.intTok 3,
         Token.intTok 4]).2 = none ∧
    (processMsg { initMonitorState with current := some 21 }
        [Token.floatTok (5/2), Token.bad "z"]).2 =
      some PyErr.valueError := by
  have h1 := c1_decode_failure_amended
    { initMonitorState with current := some 21 }
    [Token.intTok 1, Token.intTok 2, Token.intTok 3, Token.intTok 4]
  have h2 := c1_decode_failure_amended
    { initMonitorState with current := some 21 }
    [Token.floatTok (5/2), Token.bad "z"]
  exact ⟨(h1.1 (by simp)).2.2.1, (h1.1 (by simp)).2.2.2 (by simp),
         h2.2 (by decide)⟩

/-- Claim C2, counterexample.  The claim asserts that only the first
decoded reading after a (re)connection seeds `targetC` and that later
3-token readings leave it unchanged.  In the source there is no
first-reading flag: after a first reading seeds target 20, a second
3-token reading overwrites it with 25. -/
theorem c2_first_reading_sync_counterexample :
    (processMsg initMonitorState
        [Token.intTok 10, Token.intTok 0, Token.intTok 20]).1.target = 20 ∧
    (processMsg (processMsg initMonitorState
          [Token.intTok 10, Token.intTok 0, Token.intTok 20]).1
        [Token.intTok 10, Token.intTok 0, Token.intTok 25]).1.target = 25 := by
  decide

/-- Claim C2, amended.  In addition to the setpoint and unit-toggle
handlers, EVERY successfully decoded 3-token reading overwrites
`targetC` with the device-reported third field — not only the first
reading after a reconnection; 1- and 2-token readings never change
`targetC`. -/
theorem c2_target_overwrite_amended (st : MonitorState) (t0 t1 t2 : Token) :
    (goodLine [t0, t1, t2] = true →
      (processMsg st [t0, t1, t2]).1.target = tokVal t2) ∧
    (processMsg st [t0]).1.target = st.target ∧
    (processMsg st [t0, t1]).1.target = st.target := by
  refine ⟨?_, ?_, ?_⟩
  · intro h
    rw [(processMsg_fields st [t0, t1, t2]).1]
    cases t0 <;> cases t1 <;> cases t2 <;>
      simp_all [goodLine, floatable, intable, parseMsg, pyFloat, pyInt,
                tokVal] <;>
      split <;> simp
  · rw [(processMsg_fields st [t0]).1]
    cases t0 <;> simp [parseMsg, pyFloat]
  · rw [(processMsg_fields st [t0, t1]).1]
    cases t0 <;> cases t1 <;> simp [parseMsg, pyFloat, pyInt] <;>
      split <;> simp

/-- Witness for the amended claim C2: a 3-token reading processed on a
state with target 99 overwrites the target with the wire value 25. -/
theorem c2_target_overwrite_witness :
    (processMsg { initMonitorState with target := 99 }
        [Token.intTok 10, Token.intTok 0, Token.intTok 25]).1.target = 25 := by
  have h := (c2_target_overwrite_amended { initMonitorState with target := 99 }
    (Token.intTok 10) (Token.intTok 0) (Token.intTok 25)).1 (by decide)
  simpa [tokVal] using h

/-- Claim C3, evaluation at the failing input.  For the line
"10 1 50" (Fahrenheit flag set, device target 50) the source stores
`targetC = 50` — the raw Fahrenheit token — without converting, and
raises nothing.  The claim (and the stated intent of the spec, which
flags this as a latent bug) requires storing `toCelsius 50 = 10`. -/
theorem c3_no_celsius_conversion_code_eval :
    (processMsg initMonitorState
        [Token.intTok 10, Token.intTok 1, Token.intTok 50]).1.target = 50 ∧
    (processMsg initMonitorState
        [Token.intTok 10, Token.intTok 1, Token.intTok 50]).2 = none ∧
    toCelsius 50 = 10 ∧ (50 : ℚ) ≠ 10 := by
  refine ⟨by decide, by decide, by norm_num [toCelsius], by norm_num⟩

/-- Claim C4.  On a consumer polling tick the entire inbound LIFO
queue is drained and the lines are processed newest-first: pushing a
batch of well-formed lines and draining yields exactly the reversed
push order, with nothing left queued. -/
theorem c4_inbound_drain (st : MonitorState) (lines : List (List Token))
    (h : ∀ m ∈ lines, goodLine m = true) :
    (processIncoming st (List.foldl lifoPut [] lines)).2.1 = lines.reverse ∧
    (processIncoming st (List.foldl lifoPut [] lines)).2.2 = [] := by
  have hq : List.foldl lifoPut ([] : List (List Token)) lines
      = lines.reverse := by
    simpa using foldl_lifoPut lines []
  rw [hq]
  exact processIncoming_all_good st lines.reverse
    (fun m hm => h m (List.mem_reverse.mp hm))

/-- Witness for claim C4 at the concrete lines of the spec: pushing
"10 0 20", "12 0 20", "15 0 20" in that order and draining processes
them in the order 15, 12, 10 and empties the queue. -/
theorem c4_inbound_drain_witness :
    (processIncoming initMonitorState (List.foldl lifoPut []
        [[Token.intTok 10, Token.intTok 0, Token.intTok 20],
         [Token.intTok 12, Token.intTok 0, Token.intTok 20],
         [Token.intTok 15, Token.intTok 0, Token.intTok 20]])).2.1 =
      [[Token.intTok 15, Token.intTok 0, Token.intTok 20],
       [Token.intTok 12, Token.intTok 0, Token.intTok 20],
       [Token.intTok 10, Token.intTok 0, Token.intTok 20]] ∧
    (processIncoming initMonitorState (List.foldl lifoPut []
        [[Token.intTok 10, Token.intTok 0, Token.intTok 20],
         [Token.intTok 12, Token.intTok 0, Token.intTok 20],
         [Token.intTok 15, Token.intTok 0, Token.intTok 20]])).2.2 = [] := by
  have h := c4_inbound_drain initMonitorState
    [[Token.intTok 10, Token.intTok 0, Token.intTok 20],
     [Token.intTok 12, Token.intTok 0, Token.intTok 20],
     [Token.intTok 15, Token.intTok 0, Token.intTok 20]] (by decide)
  simpa using h


lemma readPhase_out (st : ClientState) (r1 r2 : ReadResult) :
    (readPhase st r1 r2).outQueue = st.outQueue ∧
    (readPhase st r1 r2).written = st.written ∧
    (readPhase st r1 r2).running = st.running := by
  cases r1 <;> cases r2 <;> simp [readPhase]

lemma writePhase_aux (st : ClientState) :
    (writePhase st).ports = st.ports ∧
    (writePhase st).inQueue = st.inQueue ∧
    (writePhase st).running = st.running ∧
    (writePhase st).statusBar = st.statusBar ∧
    (writePhase st).monitor = st.monitor := by
  unfold writePhase
  rcases h : st.outQueue with _ | ⟨v, rest⟩ <;> simp

/-- Claim C5.  A setpoint request strictly greater than the current
target expressed in the display unit increases `targetC` by exactly 1
in Celsius display and by exactly 5/9 in Fahrenheit display, a
strictly lesser request symmetrically decreases it, and exactly one
outbound command carrying the updated `targetC` is pushed onto the
outbound queue per request. -/
theorem c5_setpoint_ratchet (st : ClientState) (data : ℚ) :
    (st.monitor.fahrenheit = 0 →
      (data > st.monitor.target →
        (writeData st data).monitor.target = st.monitor.target + 1) ∧
      (data < st.monitor.target →
        (writeData st data).monitor.target = st.monitor.target - 1)) ∧
    (st.monitor.fahrenheit ≠ 0 →
      (data > toFahrenheit st.monitor.target →
        (writeData st data).monitor.target = st.monitor.target + 5 / 9) ∧
      (data < toFahrenheit st.monitor.target →
        (writeData st data).monitor.target = st.monitor.target - 5 / 9)) ∧
    (writeData st data).outQueue =
      lifoPut st.outQueue (OutVal.num ((writeData st data).monitor.target)) := by
  unfold writeData lifoPut
  refine ⟨?_, ?_, ?_⟩
  · intro hf
    constructor <;> intro hgt
    · simp [hf, hgt]
    · have hngt : ¬ data > st.monitor.target := by linarith
      simp [hf, hgt, hngt]
  · intro hf
    constructor <;> intro hgt
    · simp [hf, hgt]
    · have hngt : ¬ data > toFahrenheit st.monitor.target := by linarith
      simp [hf, hgt, hngt]
  · simp

/-- Witness for claim C5: with Celsius display, target 30 and request
31, the target steps to 31 and exactly the command 31 is enqueued. -/
theorem c5_setpoint_ratchet_witness :
    (writeData clientNoSerial 31).monitor.target = 31 ∧
    (writeData clientNoSerial 31).outQueue = [OutVal.num 31] := by
  have h := c5_setpoint_ratchet clientNoSerial 31
  have h1 := (h.1 (by decide)).1 (by norm_num [clientNoSerial, initMonitorState])
  have ht : (writeData clientNoSerial 31).monitor.target = 31 := by
    rw [h1]
    norm_num [clientNoSerial, initMonitorState]
  refine ⟨ht, ?_⟩
  have h2 := h.2.2
  rw [ht] at h2
  simpa [clientNoSerial, lifoPut] using h2

/-- Claim C6.  When a read on the serial handle faults the read is
retried once immediately; when the retry also faults the port list is
cleared and the worker re-enters the scanning loop on its next
iteration, while a successful retry leaves the port list (and the
inbound queue — the retried result is discarded) unchanged. -/
theorem c6_double_read_fault_rescan (st : ClientState) :
    (connectedCycle st .fault .fault).ports = [] ∧
    (st.running = true →
      nextPhase (connectedCycle st .fault .fault) = Phase.scanning) ∧
    (∀ l, (connectedCycle st .fault (.got l)).ports = st.ports ∧
          (connectedCycle st .fault (.got l)).inQueue = st.inQueue) := by
  refine ⟨?_, ?_, ?_⟩
  · have := writePhase_aux (readPhase st .fault .fault)
    rw [connectedCycle, this.1]
    simp [readPhase]
  · intro hr
    have hw := writePhase_aux (readPhase st .fault .fault)
    have hro := readPhase_out st .fault .fault
    unfold nextPhase
    rw [connectedCycle, hw.1, hw.2.2.1, hro.2.2, hr]
    simp [readPhase]
  · intro l
    have hw := writePhase_aux (readPhase st .fault (.got l))
    rw [connectedCycle, hw.1, hw.2.1]
    simp [readPhase]

/-- Witness for claim C6 on the connected COM2 state: two consecutive
read faults clear the ports and send the worker to Scanning. -/
theorem c6_double_read_fault_rescan_witness :
    (connectedCycle clientOnCom2 .fault .fault).ports = [] ∧
    nextPhase (connectedCycle clientOnCom2 .fault .fault) = Phase.scanning := by
  have h := c6_double_read_fault_rescan clientOnCom2
  exact ⟨h.1, h.2.1 (by decide)⟩

/-- Claim C7.  Per connected polling cycle at most one outbound entry
is popped: none when the queue is empty, and exactly the
most-recently-pushed entry otherwise, which is written as its text
encoding followed by a newline terminator, the remaining entries
staying queued. -/
theorem c7_outbound_send (st : ClientState) (r1 r2 : ReadResult) :
    (st.outQueue = [] →
      (connectedCycle st r1 r2).outQueue = [] ∧
      (connectedCycle st r1 r2).written = st.written) ∧
    (∀ v rest, st.outQueue = lifoPut rest v →
      (connectedCycle st r1 r2).outQueue = rest ∧
      (connectedCycle st r1 r2).written = st.written ++ [pyStr v, "\n"]) := by
  have hro := readPhase_out st r1 r2
  constructor
  · intro hq
    rw [connectedCycle, writePhase, hro.1, hq]
    simp [hro.1, hro.2.1, hq]
  · intro v rest hq
    rw [connectedCycle, writePhase, hro.1, hq]
    simp [lifoPut, hro.2.1]

/-- Witness for claim C7: a cycle with the single queued command 31
writes "31" then a newline and leaves the queue empty. -/
theorem c7_outbound_send_witness :
    (connectedCycle { clientOnCom2 with outQueue := [OutVal.num 31] }
        .emptyRead .emptyRead).outQueue = [] ∧
    (connectedCycle { clientOnCom2 with outQueue := [OutVal.num 31] }
        .emptyRead .emptyRead).written = [pyStr (OutVal.num 31), "\n"] := by
  have h := (c7_outbound_send { clientOnCom2 with outQueue := [OutVal.num 31] }
    .emptyRead .emptyRead).2 (OutVal.num 31) [] (by decide)
  simpa [clientOnCom2, clientNoSerial] using h

/-- Claim C8, counterexample.  The claim asserts close is always safe
even when no serial connection was ever opened.  When no port was
found at startup `self.ser` is never assigned, and `endWidget` raises
AttributeError on `self.ser.close()`. -/
theorem c8_close_counterexample :
    clientNoSerial.ser = none ∧
    (endWidget clientNoSerial).2 = some PyErr.attributeError := by decide

/-- Claim C8, amended.  Close is idempotent and safe once a serial
handle object exists — closing an already-closed handle succeeds and
leaves it closed — but when no serial connection was ever successfully
opened, close raises AttributeError because no handle was ever
assigned. -/
theorem c8_close_idempotent_amended (st : ClientState) (h : SerialHandle)
    (hs : st.ser = some h) :
    (endWidget st).2 = none ∧
    (endWidget st).1.ser = some (closeHandle h) ∧
    (endWidget ((endWidget st).1)).2 = none ∧
    (endWidget ((endWidget st).1)).1.ser = (endWidget st).1.ser := by
  unfold endWidget closeHandle
  simp [hs]

/-- Witness for the amended claim C8 on the connected COM2 state:
closing succeeds, and closing again also succeeds. -/
theorem c8_close_idempotent_witness :
    (endWidget clientOnCom2).2 = none ∧
    (endWidget ((endWidget clientOnCom2).1)).2 = none := by
  have h := c8_close_idempotent_amended clientOnCom2
    { port := "COM2", isOpen := true } (by decide)
  exact ⟨h.1, h.2.2.1⟩

/-- Claim C9, evaluation at the failing input.  `changePort` closes
the current handle but then hits NameError: `BAUD_RATE` on line 599 is
resolved against the module globals, where it does not exist (it is a
class attribute).  The bare `except` swallows it and reports an error,
so the newly selected port is never opened: after selecting COM3 the
handle is still the closed COM2 handle and the status bar shows the
error text. -/
theorem c9_change_port_code_eval :
    moduleGlobals.contains "BAUD_RATE" = false ∧
    (changePort clientOnCom2 1 true).ser =
      some { port := "COM2", isOpen := false } ∧
    (changePort clientOnCom2 1 true).statusBar = "Error on COM3" := by
  decide

/-- Claim C10.  The port enumerator returns exactly the candidates
that survive the open-then-close probe — it never includes a port
whose open fails — and when no candidate is usable it returns an empty
list rather than an error. -/
theorem c10_port_probe (probe : String → Bool) (cands glb : List String) :
    probeLoop probe cands = cands.filter probe ∧
    (∀ p, p ∈ probeLoop probe cands → probe p = true) ∧
    ((∀ p ∈ cands, probe p = false) →
      serial_ports .linux probe cands glb = .ok []) := by
  have hf : probeLoop probe cands = cands.filter probe := by
    induction cands with
    | nil => simp [probeLoop]
    | cons p rest ih => by_cases hp : probe p <;> simp [probeLoop, hp, ih]
  refine ⟨hf, ?_, ?_⟩
  · intro p hp
    rw [hf] at hp
    exact List.of_mem_filter hp
  · intro hall
    have hnil : cands.filter probe = [] := by
      rw [List.filter_eq_nil_iff]
      intro a ha
      simp [hall a ha]
    simp [serial_ports, hf, hnil]

/-- Witness for claim C10: with a probe that rejects every candidate,
enumeration on Linux returns the empty list without an error. -/
theorem c10_port_probe_witness :
    serial_ports .linux (fun _ => false) ["/dev/ttyUSB0", "/dev/ttyS0"] []
      = .ok [] := by
  exact (c10_port_probe (fun _ => false) ["/dev/ttyUSB0", "/dev/ttyS0"] []).2.2
    (by simp)

end TC1000
